import Mathlib

/-!
Shallow embedding of `src/module.c`, the value-marshaling and lifetime-bridging
layer between a Python host and an embedded QuickJS engine.

Modeling conventions:
* Engine values (`JSValue`) are the inductive `JSVal`, one constructor per tag
  that `module.c` dispatches on.  A Float64 payload is modeled as a rational.
* Every engine API call made by `module.c` (`JS_DupValue`, `JS_FreeValue`,
  `JS_NewString`, `JS_Call`, `JS_GetException`, ...) is recorded, in program
  order, in an `Effect` trace carried by `EngineState`; an empty trace delta
  means the engine was not touched at all.
* The host-level reference count of the `ContextData` object (manipulated by
  `Py_INCREF`/`Py_DECREF` in the source) is the `ctxRefcount` field.  Since one
  `_quickjs.Context` is in play per theorem, a handle's `context` field is
  `Option Unit`: `some ()` is a non-NULL back pointer, `none` is NULL.
* Fallible paths return `Except PyErr PyValue`, mirroring `return NULL` with a
  set Python error indicator.
* Host-side scratch allocation (`malloc`/`free` of the `jsargs` array) is not
  an engine effect and is not recorded.
-/

namespace QuickjsSpec

/-- Engine values: one constructor per `JS_TAG_*` case that `module.c`
handles (`JS_TAG_INT`, `JS_TAG_BOOL`, `JS_TAG_NULL`, `JS_TAG_UNDEFINED`,
`JS_TAG_EXCEPTION`, `JS_TAG_FLOAT64`, `JS_TAG_STRING`, `JS_TAG_OBJECT`).
Heap objects are identified by a numeric id; the Float64 payload is modeled
as a rational number. -/
inductive JSVal where
  | mkInt : Int → JSVal
  | mkBool : Bool → JSVal
  | null : JSVal
  | undefined : JSVal
  | exception : JSVal
  | mkFloat : Rat → JSVal
  | mkString : String → JSVal
  | mkObject : Nat → JSVal
  deriving DecidableEq

/-- The data of the type `_quickjs.Object` (`ObjectData` in the source):
a back pointer to its `ContextData` (NULL = `none`) and the wrapped engine
value. -/
structure ObjectData where
  context : Option Unit
  object : JSVal
  deriving DecidableEq

/-- Host (Python) values as seen by the marshaling layer.  `pyOther` stands
for any unsupported host kind and carries its type name (`tp_name`). -/
inductive PyValue where
  | pyBool : Bool → PyValue
  | pyInt : Int → PyValue
  | pyFloat : Rat → PyValue
  | pyNone : PyValue
  | pyStr : String → PyValue
  | pyObject : ObjectData → PyValue
  | pyOther : String → PyValue
  deriving DecidableEq

/-- Host-level error kinds reachable from this layer: `PyExc_ValueError`,
`PyExc_TypeError` (present in the host, for comparison), and the module's own
`_quickjs.JSException` (the dedicated script-error kind). -/
inductive PyErr where
  | valueError : String → PyErr
  | typeError : String → PyErr
  | jsException : String → PyErr
  deriving DecidableEq

/-- One engine API call performed by `module.c`. -/
inductive Effect where
  | dupValue : JSVal → Effect
  | freeValue : JSVal → Effect
  | newString : String → Effect
  | newFloat : Rat → Effect
  | callFn : JSVal → JSVal → List JSVal → Effect
  | getException : Effect
  | toStringOp : JSVal → Effect
  | toCStringOp : JSVal → Effect
  | freeCString : Effect
  | getGlobal : Effect
  | getProperty : JSVal → String → Effect
  | evalOp : String → Effect
  deriving DecidableEq

/-- The observable state of one Context Unit: the engine's pending-exception
slot, the host-level reference count of the `ContextData` object, and the
ordered trace of engine API calls performed so far. -/
structure EngineState where
  pendingException : Option JSVal
  ctxRefcount : Int
  effects : List Effect
  deriving DecidableEq

/-- A fresh context state: no pending exception, baseline refcount, empty
trace. -/
def initState : EngineState := { pendingException := none, ctxRefcount := 0, effects := [] }

/-- CPython `PyBool_Check`. -/
def pyBool_Check : PyValue → Bool
  | .pyBool _ => true
  | _ => false

/-- CPython `PyLong_Check`.  In CPython, `bool` is a subtype of `int`, so a
host Boolean also passes this check; this makes the order of the checks in
`object_call` observable. -/
def pyLong_Check : PyValue → Bool
  | .pyBool _ => true
  | .pyInt _ => true
  | _ => false

/-- CPython `PyFloat_Check`. -/
def pyFloat_Check : PyValue → Bool
  | .pyFloat _ => true
  | _ => false

/-- CPython `PyUnicode_Check`. -/
def pyUnicode_Check : PyValue → Bool
  | .pyStr _ => true
  | _ => false

/-- `PyObject_IsInstance(item, &Object)`. -/
def isObjectInstance : PyValue → Bool
  | .pyObject _ => true
  | _ => false

/-- `Py_TYPE(item)->tp_name`. -/
def pyTypeName : PyValue → String
  | .pyBool _ => "bool"
  | .pyInt _ => "int"
  | .pyFloat _ => "float"
  | .pyNone => "NoneType"
  | .pyStr _ => "str"
  | .pyObject _ => "_quickjs.Object"
  | .pyOther t => t

/-- CPython `PyLong_AsLong` on the values it is applied to in `object_call`
(after `PyLong_Check` succeeded): `True`/`False` read as 1/0, an int reads as
itself.  The catch-all is the C error sentinel, unreachable in the source. -/
def pyLong_AsLong : PyValue → Int
  | .pyBool b => if b then 1 else 0
  | .pyInt n => n
  | _ => -1

/-- CPython `PyFloat_AsDouble` (only reached on float arguments). -/
def pyFloat_AsDouble : PyValue → Rat
  | .pyFloat q => q
  | _ => 0

/-- CPython `PyUnicode_AsUTF8` (only reached on str arguments). -/
def pyUnicode_AsUTF8 : PyValue → String
  | .pyStr s => s
  | _ => ""

/-- `((ObjectData *)item)->object` (only reached on `_quickjs.Object`
arguments). -/
def objectOf : PyValue → JSVal
  | .pyObject h => h.object
  | _ => .undefined

/-- Modelled from the spec: `third-party/quickjs.h` is not under `src/`.
Storing a C long into the int32 payload of `JS_MKVAL(JS_TAG_INT, ...)` wraps
the value to the signed 32-bit range; the spec (section 9) notes that the
numeric argument path "truncates out-of-range values rather than raising". -/
def toInt32 (n : Int) : Int := (n + 2 ^ 31) % 2 ^ 32 - 2 ^ 31

/-- `JS_MKVAL(JS_TAG_INT, v)`: an engine integer with a 32-bit payload. -/
def js_MKVAL_INT (n : Int) : JSVal := .mkInt (toInt32 n)

/-- Modelled from the spec: `third-party/quickjs.h` is not under `src/`.
Per the codec table (section 4.2), a host floating-point argument marshals to
an engine Float64 value. -/
def js_NewFloat64 (q : Rat) : JSVal := .mkFloat q

/-- Modelled from the spec: the engine's own value-to-text conversion
(capability "convert any value to a UTF-8 string", section 6); a string value
converts to its own text, and the conversion is total. -/
def jsValueText : JSVal → String
  | .mkInt n => toString n
  | .mkBool b => if b then "true" else "false"
  | .null => "null"
  | .undefined => "undefined"
  | .exception => "exception"
  | .mkFloat q => toString q
  | .mkString s => s
  | .mkObject _ => "object"

/-- `JS_ToString`: produces an engine string value. -/
def js_ToString (v : JSVal) : JSVal := .mkString (jsValueText v)

/-- `JS_ToCString`: reads a value out as host text. -/
def js_ToCString (v : JSVal) : String := jsValueText v

/-- `quickjs_to_python` (module.c lines 150-198): converts a `JSValue` to a
Python object, consuming the passed-in reference (`JS_FreeValue` at the end).
On the exception tag it drains the pending-exception slot via
`JS_GetException`, stringifies it with `JS_ToString`/`JS_ToCString`, raises
`_quickjs.JSException` with that text, and frees the intermediate string and
the exception value.  On the object tag it wraps the value in a fresh
`_quickjs.Object`, incrementing the host refcount of the context
(`Py_INCREF`) and the engine refcount of the value (`JS_DupValue`). -/
def quickjs_to_python (st : EngineState) (value : JSVal) : Except PyErr PyValue × EngineState :=
  let step : Except PyErr PyValue × EngineState :=
    match value with
    | .mkInt n => (.ok (.pyInt n), st)
    | .mkBool b => (.ok (.pyBool b), st)
    | .null => (.ok .pyNone, st)
    | .undefined => (.ok .pyNone, st)
    | .exception =>
        let exc := st.pendingException.getD JSVal.null
        let error_string := js_ToString exc
        let cstring := js_ToCString error_string
        (.error (.jsException cstring),
         { st with pendingException := none,
                   effects := st.effects ++
                     [Effect.getException, Effect.toStringOp exc, Effect.toCStringOp error_string,
                      Effect.freeCString, Effect.freeValue error_string, Effect.freeValue exc] })
    | .mkFloat q => (.ok (.pyFloat q), st)
    | .mkString s =>
        (.ok (.pyStr (js_ToCString (JSVal.mkString s))),
         { st with effects := st.effects ++ [Effect.toCStringOp (JSVal.mkString s), Effect.freeCString] })
    | .mkObject oid =>
        (.ok (.pyObject { context := some (), object := JSVal.mkObject oid }),
         { st with ctxRefcount := st.ctxRefcount + 1,
                   effects := st.effects ++ [Effect.dupValue (JSVal.mkObject oid)] })
  (step.1, { step.2 with effects := step.2.effects ++ [Effect.freeValue value] })

/-- The message built by `PyErr_Format(PyExc_ValueError, "Unsupported type of
argument %d when calling quickjs object: %s.", i, Py_TYPE(item)->tp_name)`. -/
def unsupportedMsg (i : Nat) (item : PyValue) : String :=
  "Unsupported type of argument " ++ toString i ++ " when calling quickjs object: "
    ++ pyTypeName item ++ "."

/-- The first loop of `object_call` (module.c lines 96-111): walk the argument
tuple checking each item against the supported kinds, in source order, doing
nothing on success; on the first unsupported item set a `PyExc_ValueError`
naming its index and type and fail. -/
def validateArgs : List PyValue → Nat → Option PyErr
  | [], _ => none
  | item :: rest, i =>
      if pyBool_Check item then validateArgs rest (i + 1)
      else if pyLong_Check item then validateArgs rest (i + 1)
      else if pyFloat_Check item then validateArgs rest (i + 1)
      else if item = PyValue.pyNone then validateArgs rest (i + 1)
      else if pyUnicode_Check item then validateArgs rest (i + 1)
      else if isObjectInstance item then validateArgs rest (i + 1)
      else some (PyErr.valueError (unsupportedMsg i item))

/-- The disjunction of the six accepting checks of the validation loop. -/
def argSupported (item : PyValue) : Bool :=
  pyBool_Check item || pyLong_Check item || pyFloat_Check item
    || decide (item = PyValue.pyNone) || pyUnicode_Check item || isObjectInstance item

/-- One iteration of the second loop of `object_call` (module.c lines
115-130): convert a (validated) argument to an engine value, returning the
value and the engine API calls the conversion performed.  The check order is
the same if/else chain as the validation loop.  The final catch-all mirrors
the fact that the source leaves `jsargs[i]` unset there; it is unreachable
because validation already succeeded. -/
def convertArg (item : PyValue) : JSVal × List Effect :=
  if pyBool_Check item then (JSVal.mkBool (decide (item = PyValue.pyBool true)), [])
  else if pyLong_Check item then (js_MKVAL_INT (pyLong_AsLong item), [])
  else if pyFloat_Check item then
    (js_NewFloat64 (pyFloat_AsDouble item), [Effect.newFloat (pyFloat_AsDouble item)])
  else if item = PyValue.pyNone then (JSVal.null, [])
  else if pyUnicode_Check item then
    (JSVal.mkString (pyUnicode_AsUTF8 item), [Effect.newString (pyUnicode_AsUTF8 item)])
  else if isObjectInstance item then (objectOf item, [Effect.dupValue (objectOf item)])
  else (JSVal.undefined, [])

/-- The whole conversion loop: the converted argument values in argument
order, and the engine API calls performed, in program order. -/
def convertArgs : List PyValue → List JSVal × List Effect
  | [] => ([], [])
  | item :: rest =>
      ((convertArg item).1 :: (convertArgs rest).1, (convertArg item).2 ++ (convertArgs rest).2)

/-- `object_call` (module.c lines 87-145), `_quickjs.Object.__call__`:
if the handle has no context, return `None` immediately (no engine call);
otherwise validate every argument (first loop), then convert them (second
loop), invoke the wrapped value with `JS_Call(ctx, self->object, JS_NULL,
nargs, jsargs)`, free every converted argument, and convert the result via
`quickjs_to_python`.  `cr` is the value the engine returns from `JS_Call`. -/
def object_call (self : ObjectData) (args : List PyValue) (cr : JSVal) (st : EngineState) :
    Except PyErr PyValue × EngineState :=
  if self.context = none then (Except.ok PyValue.pyNone, st)
  else
    match validateArgs args 0 with
    | some e => (Except.error e, st)
    | none =>
        quickjs_to_python
          { st with effects := st.effects ++ (convertArgs args).2
              ++ [Effect.callFn self.object JSVal.null (convertArgs args).1]
              ++ ((convertArgs args).1.map Effect.freeValue) } cr

/-- `object_new` (module.c lines 26-33): allocates an `ObjectData` with
`context = NULL`; `tp_alloc` zero-fills the rest, so the `object` field is
the all-zero `JSValue` (tag `JS_TAG_INT`, payload 0). -/
def object_new : ObjectData := { context := none, object := JSVal.mkInt 0 }

/-- `object_dealloc` (module.c lines 36-44): if the handle has a context,
free the wrapped engine value and drop the host reference to the context
(`Py_DECREF`); otherwise do nothing engine- or context-related. -/
def object_dealloc (self : ObjectData) (st : EngineState) : EngineState :=
  if self.context = none then st
  else { st with ctxRefcount := st.ctxRefcount - 1,
                 effects := st.effects ++ [Effect.freeValue self.object] }

/-- `object_json` (module.c lines 52-67), `_quickjs.Object.json`: looks up
`JSON.stringify` from the global object, calls it with the wrapped value,
frees the intermediates, and converts the result.  The source dereferences
`self->context->context` with no guard, so the function is modeled as
`Option`-valued: `none` marks the undefined NULL dereference (this is the
model's only deviation from the source's control flow — it represents
undefined behavior, not an error branch of the source).  `global`, `JSONv`,
`stringifyv` and `json_string` are the values the engine returns from
`JS_GetGlobalObject`, the two `JS_GetPropertyStr` reads, and `JS_Call`. -/
def object_json (self : ObjectData) (global JSONv stringifyv json_string : JSVal)
    (st : EngineState) : Option (Except PyErr PyValue × EngineState) :=
  if self.context = none then none
  else
    some (quickjs_to_python
      { st with effects := st.effects ++
          [Effect.getGlobal, Effect.getProperty global "JSON",
           Effect.getProperty JSONv "stringify",
           Effect.callFn stringifyv JSONv [self.object],
           Effect.freeValue global, Effect.freeValue JSONv, Effect.freeValue stringifyv] }
      json_string)

/-- `context_eval` (module.c lines 231-245): evaluate source text and convert
the result; `evalResult` is the value the engine returns from `JS_Eval`. -/
def context_eval (st : EngineState) (code : String) (evalResult : JSVal) :
    Except PyErr PyValue × EngineState :=
  quickjs_to_python { st with effects := st.effects ++ [Effect.evalOp code] } evalResult

/-- `context_get` (module.c lines 250-259): read a global property and convert
the result; `global` and `propResult` are the values the engine returns from
`JS_GetGlobalObject` and `JS_GetPropertyStr`. -/
def context_get (st : EngineState) (name : String) (global propResult : JSVal) :
    Except PyErr PyValue × EngineState :=
  quickjs_to_python
    { st with effects := st.effects ++
        [Effect.getGlobal, Effect.getProperty global name, Effect.freeValue global] }
    propResult

/-- The engine API calls `quickjs_to_python` appends for a given input value,
as a function of the pending-exception slot. -/
def qtpEffects (pending : Option JSVal) : JSVal → List Effect
  | JSVal.exception =>
      [Effect.getException, Effect.toStringOp (pending.getD JSVal.null),
       Effect.toCStringOp (js_ToString (pending.getD JSVal.null)), Effect.freeCString,
       Effect.freeValue (js_ToString (pending.getD JSVal.null)),
       Effect.freeValue (pending.getD JSVal.null), Effect.freeValue JSVal.exception]
  | JSVal.mkString s =>
      [Effect.toCStringOp (JSVal.mkString s), Effect.freeCString,
       Effect.freeValue (JSVal.mkString s)]
  | JSVal.mkObject oid =>
      [Effect.dupValue (JSVal.mkObject oid), Effect.freeValue (JSVal.mkObject oid)]
  | v => [Effect.freeValue v]

/-- Number of occurrences of one effect in a trace. -/
def effCount (e : Effect) : List Effect → Nat
  | [] => 0
  | x :: l => (if x = e then 1 else 0) + effCount e l

/-- Number of occurrences of one engine value in a list. -/
def valCount (v : JSVal) : List JSVal → Nat
  | [] => 0
  | x :: l => (if x = v then 1 else 0) + valCount v l

/-- Net engine reference-count change for value `v` recorded in a trace:
`JS_DupValue` occurrences minus `JS_FreeValue` occurrences. -/
def refDelta (v : JSVal) (l : List Effect) : Int :=
  (effCount (Effect.dupValue v) l : Int) - (effCount (Effect.freeValue v) l : Int)

/-- Number of arguments that are `_quickjs.Object` handles wrapping engine
value `v`. -/
def objArgCount (v : JSVal) : List PyValue → Nat
  | [] => 0
  | x :: l => (if isObjectInstance x = true ∧ objectOf x = v then 1 else 0) + objArgCount v l

/-- A host primitive in the sense of the codec table: Boolean, Integer,
Float64, the None-equivalent, or Text. -/
def primitive : PyValue → Bool
  | .pyBool _ => true
  | .pyInt _ => true
  | .pyFloat _ => true
  | .pyNone => true
  | .pyStr _ => true
  | _ => false

/-- Host-to-engine-to-host round trip of one value along the marshaling path:
the argument-conversion step of `object_call` followed by
`quickjs_to_python`. -/
def roundtrip (v : PyValue) : Except PyErr PyValue :=
  (quickjs_to_python { initState with effects := (convertArg v).2 } (convertArg v).1).1

/-- Whether a call result is a raised `PyExc_TypeError`. -/
def isTypeErrorResult : Except PyErr PyValue × EngineState → Bool
  | (.error (.typeError _), _) => true
  | _ => false

/-- Whether a result is a raised host error of any kind. -/
def isError : Except PyErr PyValue → Bool
  | .error _ => true
  | _ => false

/-- Whether an engine value carries the integer tag. -/
def isIntVal : JSVal → Bool
  | .mkInt _ => true
  | _ => false

/-- The validation loop accepts an item exactly when one of the six checks
accepts it. -/
theorem validateArgs_cons (item : PyValue) (rest : List PyValue) (i : Nat) :
    validateArgs (item :: rest) i =
      if argSupported item = true then validateArgs rest (i + 1)
      else some (PyErr.valueError (unsupportedMsg i item)) := by
  cases item <;>
    simp [validateArgs, argSupported, pyBool_Check, pyLong_Check, pyFloat_Check,
      pyUnicode_Check, isObjectInstance]

/-- The validation loop succeeds exactly when every argument is supported. -/
theorem validateArgs_eq_none (args : List PyValue) : ∀ i : Nat,
    (validateArgs args i = none ↔ ∀ x ∈ args, argSupported x = true) := by
  induction args with
  | nil => intro i; simp [validateArgs]
  | cons a l ih =>
      intro i
      rw [validateArgs_cons]
      by_cases h : argSupported a = true
      · simp [h, ih (i + 1)]
      · simp only [h, if_false]
        constructor
        · intro hc; exact absurd hc (by simp)
        · intro hall; exact absurd (hall a (List.mem_cons_self a l)) h

/-- On a list whose prefix is all supported and whose next item is not, the
validation loop reports exactly that item's index and type. -/
theorem validateArgs_bad (item : PyValue) (rest : List PyValue)
    (hbad : argSupported item = false) :
    ∀ (pre : List PyValue) (i : Nat), (∀ x ∈ pre, argSupported x = true) →
      validateArgs (pre ++ item :: rest) i
        = some (PyErr.valueError (unsupportedMsg (i + pre.length) item)) := by
  intro pre
  induction pre with
  | nil =>
      intro i _
      rw [List.nil_append, validateArgs_cons, if_neg (by simp [hbad])]
      simp
  | cons a pre ih =>
      intro i hpre
      rw [List.cons_append, validateArgs_cons, if_pos (hpre a (List.mem_cons_self a pre)),
        ih (i + 1) (fun x hx => hpre x (List.mem_cons_of_mem a hx))]
      have h2 : (i + 1) + pre.length = i + (a :: pre).length := by
        rw [List.length_cons]; omega
      rw [h2]

/-- The effects appended by `quickjs_to_python` are `qtpEffects` of the input
value and the pending-exception slot. -/
theorem qtp_effects (st : EngineState) (v : JSVal) :
    (quickjs_to_python st v).2.effects = st.effects ++ qtpEffects st.pendingException v := by
  cases v <;> simp [quickjs_to_python, qtpEffects]

/-- Unfolding of `object_call` on the success path of validation. -/
theorem object_call_valid (self : ObjectData) (args : List PyValue) (cr : JSVal)
    (st : EngineState) (hctx : self.context = some ()) (hval : validateArgs args 0 = none) :
    object_call self args cr st =
      quickjs_to_python
        { st with effects := st.effects ++ (convertArgs args).2
            ++ [Effect.callFn self.object JSVal.null (convertArgs args).1]
            ++ ((convertArgs args).1.map Effect.freeValue) } cr := by
  simp [object_call, hctx, hval]

/-- Occurrence counting distributes over trace concatenation. -/
theorem effCount_append (e : Effect) (l1 l2 : List Effect) :
    effCount e (l1 ++ l2) = effCount e l1 + effCount e l2 := by
  induction l1 with
  | nil => simp [effCount]
  | cons x l ih => simp [effCount, ih]; omega

/-- Reference-count deltas distribute over trace concatenation. -/
theorem refDelta_append (v : JSVal) (l1 l2 : List Effect) :
    refDelta v (l1 ++ l2) = refDelta v l1 + refDelta v l2 := by
  simp [refDelta, effCount_append]
  ring

/-- Converting one argument dups an object value exactly when the argument is
a handle wrapping that value, and frees nothing. -/
theorem refDelta_convertArgs (oid : Nat) (args : List PyValue) :
    refDelta (JSVal.mkObject oid) (convertArgs args).2
      = (objArgCount (JSVal.mkObject oid) args : Int) := by
  induction args with
  | nil => simp [convertArgs, refDelta, effCount, objArgCount]
  | cons a l ih =>
      rw [show (convertArgs (a :: l)).2 = (convertArg a).2 ++ (convertArgs l).2 from rfl,
        refDelta_append, ih]
      cases a with
      | pyObject h =>
          by_cases hh : h.object = JSVal.mkObject oid <;>
            simp [convertArg, refDelta, effCount, objArgCount, isObjectInstance, objectOf,
              pyBool_Check, pyLong_Check, pyFloat_Check, pyUnicode_Check, hh]
      | _ =>
          simp [convertArg, refDelta, effCount, objArgCount, isObjectInstance, objectOf,
            pyBool_Check, pyLong_Check, pyFloat_Check, pyUnicode_Check]

/-- The converted argument list contains an object value exactly as often as a
handle wrapping it occurs among the arguments (no other supported kind
converts to an object value). -/
theorem valCount_convertArgs (oid : Nat) (args : List PyValue) :
    valCount (JSVal.mkObject oid) (convertArgs args).1
      = objArgCount (JSVal.mkObject oid) args := by
  induction args with
  | nil => simp [convertArgs, valCount, objArgCount]
  | cons a l ih =>
      rw [show (convertArgs (a :: l)).1 = (convertArg a).1 :: (convertArgs l).1 from rfl]
      cases a with
      | pyObject h =>
          by_cases hh : h.object = JSVal.mkObject oid <;>
            simp [convertArg, valCount, objArgCount, isObjectInstance, objectOf,
              pyBool_Check, pyLong_Check, pyFloat_Check, pyUnicode_Check, hh, ih]
      | _ =>
          simp [convertArg, valCount, objArgCount, isObjectInstance, objectOf,
            pyBool_Check, pyLong_Check, pyFloat_Check, pyUnicode_Check, ih,
            js_MKVAL_INT, js_NewFloat64]

/-- The post-call cleanup loop performs no `JS_DupValue`. -/
theorem effCount_dup_map_free (v : JSVal) (l : List JSVal) :
    effCount (Effect.dupValue v) (l.map Effect.freeValue) = 0 := by
  induction l with
  | nil => simp [effCount]
  | cons a l ih => simp [effCount, ih]

/-- The post-call cleanup loop frees a value once per occurrence in the
converted argument list. -/
theorem effCount_free_map_free (v : JSVal) (l : List JSVal) :
    effCount (Effect.freeValue v) (l.map Effect.freeValue) = valCount v l := by
  induction l with
  | nil => simp [effCount, valCount]
  | cons a l ih =>
      by_cases h : a = v <;> simp [effCount, valCount, h, ih]

/-- Reference-count delta of the cleanup loop. -/
theorem refDelta_map_freeValue (v : JSVal) (l : List JSVal) :
    refDelta v (l.map Effect.freeValue) = -(valCount v l : Int) := by
  simp [refDelta, effCount_dup_map_free, effCount_free_map_free]

/-- The `JS_Call` invocation itself neither dups nor frees. -/
theorem refDelta_callFn (v f t : JSVal) (l : List JSVal) :
    refDelta v [Effect.callFn f t l] = 0 := by
  simp [refDelta, effCount]

/-- Converting a non-exception result back to the host leaves every object
value's engine reference count unchanged (the object branch dups the result
and then the final consume frees it; every other branch frees only the
non-object input). -/
theorem refDelta_qtpEffects (oid : Nat) (pending : Option JSVal) (cr : JSVal)
    (hcr : cr ≠ JSVal.exception) :
    refDelta (JSVal.mkObject oid) (qtpEffects pending cr) = 0 := by
  cases cr with
  | exception => exact absurd rfl hcr
  | mkObject w =>
      by_cases hw : w = oid <;> simp [qtpEffects, refDelta, effCount, hw]
  | _ => simp [qtpEffects, refDelta, effCount]

/-- The converted argument list is the pointwise conversion of the host
arguments, in argument order. -/
theorem convertArgs_fst_map (args : List PyValue) :
    (convertArgs args).1 = args.map (fun a => (convertArg a).1) := by
  induction args with
  | nil => rfl
  | cons a l ih => simp [convertArgs, ih]

/-- C1 counterexample: the claim fails as stated.  The host integer `2 ^ 31`
is a supported primitive value, but marshaling it host-to-engine stores it in
the engine integer's 32-bit payload, which wraps it to `-(2 ^ 31)`; the round
trip therefore does not return a value equal to the input. -/
theorem roundtrip_int_overflow_counterexample :
    roundtrip (PyValue.pyInt (2 ^ 31)) = Except.ok (PyValue.pyInt (-(2 ^ 31)))
    ∧ roundtrip (PyValue.pyInt (2 ^ 31)) ≠ Except.ok (PyValue.pyInt (2 ^ 31)) := by
  constructor
  · rfl
  · intro h
    rw [show roundtrip (PyValue.pyInt (2 ^ 31))
          = Except.ok (PyValue.pyInt (-(2 ^ 31))) from rfl] at h
    injection h with h1
    injection h1 with h2
    omega

/-- C1 (amended): for every supported primitive host value — Boolean, Float64,
the None-equivalent, Text, and Integers within the engine's signed 32-bit
range — marshaling host-to-engine and converting back yields the value
itself.  (The unamended claim fails for integers outside that range, which
the engine integer's 32-bit payload wraps; see the counterexample.) -/
theorem roundtrip_primitive_eq (v : PyValue) (hp : primitive v = true)
    (hrange : ∀ n : Int, v = PyValue.pyInt n → -(2 ^ 31) ≤ n ∧ n < 2 ^ 31) :
    roundtrip v = Except.ok v := by
  cases v with
  | pyBool b => cases b <;> rfl
  | pyInt n =>
      have hb := hrange n rfl
      have ht : toInt32 n = n := by unfold toInt32; omega
      simp [roundtrip, convertArg, pyBool_Check, pyLong_Check, js_MKVAL_INT, pyLong_AsLong,
        ht, quickjs_to_python]
  | pyFloat q => rfl
  | pyNone => rfl
  | pyStr s => rfl
  | pyObject h => simp [primitive] at hp
  | pyOther t => simp [primitive] at hp

/-- C1 witness: the amended round-trip theorem at the concrete input 7. -/
theorem roundtrip_primitive_eq_witness :
    roundtrip (PyValue.pyInt 7) = Except.ok (PyValue.pyInt 7) :=
  roundtrip_primitive_eq (PyValue.pyInt 7) (by decide)
    (by intro n h; injection h with h1; subst h1; decide)

/-- C2: if some argument is of an unsupported host kind, `object_call` on a
handle with an attached context fails during the first (validation) pass,
before the conversion pass, and returns with the engine state completely
unchanged — no engine effect recorded, no engine-side value allocated. -/
theorem object_call_reject_leaves_state (self : ObjectData) (args : List PyValue)
    (cr : JSVal) (st : EngineState) (hctx : self.context = some ())
    (x : PyValue) (hx : x ∈ args) (hbad : argSupported x = false) :
    isError (object_call self args cr st).1 = true
      ∧ (object_call self args cr st).2 = st := by
  have h1 : ¬ validateArgs args 0 = none := by
    intro hn
    have h2 := (validateArgs_eq_none args 0).1 hn x hx
    simp [hbad] at h2
  cases hv : validateArgs args 0 with
  | none => exact absurd hv h1
  | some e => constructor <;> simp [object_call, hctx, hv, isError]

/-- C2 witness: rejection at a concrete unsupported argument (a host list). -/
theorem object_call_reject_leaves_state_witness :
    isError (object_call { context := some (), object := JSVal.mkObject 1 }
        [PyValue.pyOther "list"] JSVal.null initState).1 = true
    ∧ (object_call { context := some (), object := JSVal.mkObject 1 }
        [PyValue.pyOther "list"] JSVal.null initState).2 = initState :=
  object_call_reject_leaves_state { context := some (), object := JSVal.mkObject 1 }
    [PyValue.pyOther "list"] JSVal.null initState rfl (PyValue.pyOther "list")
    (List.mem_cons_self _ _) (by decide)

/-- C3: whenever an engine operation returns the exception marker, the result
conversion drains the pending-exception slot exactly once (a single
`JS_GetException` in the appended trace), stringifies the exception with the
engine's own conversion, raises the dedicated `_quickjs.JSException` whose
message is exactly that stringified text, and frees the intermediate string
value and the exception value; afterwards the pending-exception slot is clear,
so the context is reusable.  The same holds through `context_eval`,
`context_get` and `object_call`, which all return through
`quickjs_to_python`. -/
theorem exception_translator_drains_once (st : EngineState) (e : JSVal)
    (code nm : String) (g : JSVal) (hp : st.pendingException = some e) :
    ((quickjs_to_python st JSVal.exception).1
        = Except.error (PyErr.jsException (js_ToCString (js_ToString e)))
      ∧ (quickjs_to_python st JSVal.exception).2.pendingException = none
      ∧ (quickjs_to_python st JSVal.exception).2.effects = st.effects ++
          [Effect.getException, Effect.toStringOp e, Effect.toCStringOp (js_ToString e),
           Effect.freeCString, Effect.freeValue (js_ToString e), Effect.freeValue e,
           Effect.freeValue JSVal.exception])
    ∧ (context_eval st code JSVal.exception).1
        = Except.error (PyErr.jsException (js_ToCString (js_ToString e)))
    ∧ (context_eval st code JSVal.exception).2.pendingException = none
    ∧ (context_get st nm g JSVal.exception).1
        = Except.error (PyErr.jsException (js_ToCString (js_ToString e)))
    ∧ (context_get st nm g JSVal.exception).2.pendingException = none
    ∧ (object_call { context := some (), object := g } [] JSVal.exception st).1
        = Except.error (PyErr.jsException (js_ToCString (js_ToString e)))
    ∧ (object_call { context := some (), object := g } [] JSVal.exception st).2.pendingException
        = none := by
  refine ⟨⟨?_, ?_, ?_⟩, ?_, ?_, ?_, ?_, ?_, ?_⟩ <;>
    simp [quickjs_to_python, context_eval, context_get, object_call, validateArgs,
      convertArgs, hp]

/-- C3 witness: the translator at a concrete pending exception. -/
theorem exception_translator_drains_once_witness :
    (quickjs_to_python { initState with pendingException := some (JSVal.mkString "boom") }
        JSVal.exception).1
      = Except.error (PyErr.jsException (js_ToCString (js_ToString (JSVal.mkString "boom")))) :=
  (exception_translator_drains_once
    { initState with pendingException := some (JSVal.mkString "boom") }
    (JSVal.mkString "boom") "x" "x" JSVal.null rfl).1.1

/-- C4 counterexample: at a concrete unsupported argument (a host list), the
call raises `PyExc_ValueError` — not a TypeError, so the error kind the claim
asserts is wrong (the message does name the 0-based position and host
type). -/
theorem unsupported_arg_typeerror_counterexample :
    object_call { context := some (), object := JSVal.mkObject 1 } [PyValue.pyOther "list"]
        JSVal.null initState
      = (Except.error (PyErr.valueError
          "Unsupported type of argument 0 when calling quickjs object: list."), initState)
    ∧ isTypeErrorResult (object_call { context := some (), object := JSVal.mkObject 1 }
        [PyValue.pyOther "list"] JSVal.null initState) = false := by
  constructor
  · rfl
  · rfl

/-- C4 (amended): calling a handle with an argument of an unsupported host
kind raises `PyExc_ValueError` — a host-native error kind distinct from the
script-error kind `_quickjs.JSException`, but a ValueError rather than the
TypeError the claim states — whose message names the offending argument's
0-based position and its host type name, and the engine state is left
unchanged. -/
theorem unsupported_arg_raises_valueerror (self : ObjectData) (pre : List PyValue)
    (item : PyValue) (rest : List PyValue) (cr : JSVal) (st : EngineState)
    (hctx : self.context = some ()) (hpre : ∀ x ∈ pre, argSupported x = true)
    (hbad : argSupported item = false) :
    object_call self (pre ++ item :: rest) cr st
      = (Except.error (PyErr.valueError (unsupportedMsg pre.length item)), st) := by
  have hv := validateArgs_bad item rest hbad pre 0 hpre
  simp only [Nat.zero_add] at hv
  simp [object_call, hctx, hv]

/-- C4 witness: the amended theorem at a concrete call with one supported and
one unsupported argument. -/
theorem unsupported_arg_raises_valueerror_witness :
    object_call { context := some (), object := JSVal.mkObject 1 }
        ([PyValue.pyInt 1] ++ PyValue.pyOther "dict" :: []) JSVal.null initState
      = (Except.error (PyErr.valueError
          (unsupportedMsg (List.length [PyValue.pyInt 1]) (PyValue.pyOther "dict"))),
         initState) :=
  unsupported_arg_raises_valueerror { context := some (), object := JSVal.mkObject 1 }
    [PyValue.pyInt 1] (PyValue.pyOther "dict") [] JSVal.null initState rfl
    (by intro x hx; simp at hx; subst hx; decide) (by decide)

/-- C5: a handle created by the normal conversion path (the object branch of
`quickjs_to_python`) has the context attached and, at creation, increments
the host-level refcount of its Context Unit by one (`Py_INCREF`) and takes
one engine-level reference on the wrapped value (`JS_DupValue`, paired with
the consumption of the caller's input reference); `object_dealloc` releases
exactly both — one `JS_FreeValue` of the wrapped value and one `Py_DECREF` —
returning the context refcount to its pre-creation value.  While the handle
lives the context refcount stays one above its pre-creation value, which is
what defers the Context Unit's destruction until the last handle dies. -/
theorem handle_refcount_lifecycle (st : EngineState) (oid : Nat) :
    (quickjs_to_python st (JSVal.mkObject oid)).1
        = Except.ok (PyValue.pyObject { context := some (), object := JSVal.mkObject oid })
    ∧ (quickjs_to_python st (JSVal.mkObject oid)).2.ctxRefcount = st.ctxRefcount + 1
    ∧ (quickjs_to_python st (JSVal.mkObject oid)).2.effects
        = st.effects
            ++ [Effect.dupValue (JSVal.mkObject oid), Effect.freeValue (JSVal.mkObject oid)]
    ∧ (object_dealloc { context := some (), object := JSVal.mkObject oid }
          (quickjs_to_python st (JSVal.mkObject oid)).2).effects
        = (quickjs_to_python st (JSVal.mkObject oid)).2.effects
            ++ [Effect.freeValue (JSVal.mkObject oid)]
    ∧ (object_dealloc { context := some (), object := JSVal.mkObject oid }
          (quickjs_to_python st (JSVal.mkObject oid)).2).ctxRefcount
        = (quickjs_to_python st (JSVal.mkObject oid)).2.ctxRefcount - 1
    ∧ (object_dealloc { context := some (), object := JSVal.mkObject oid }
          (quickjs_to_python st (JSVal.mkObject oid)).2).ctxRefcount = st.ctxRefcount := by
  refine ⟨rfl, rfl, ?_, ?_, ?_, ?_⟩ <;> simp [quickjs_to_python, object_dealloc]

/-- C6: a handle with no attached Context Unit is inert: calling it returns
the host None-equivalent immediately and performs no engine operation of any
kind — the state is returned unchanged. -/
theorem inert_handle_call_is_noop (self : ObjectData) (args : List PyValue) (cr : JSVal)
    (st : EngineState) (hctx : self.context = none) :
    object_call self args cr st = (Except.ok PyValue.pyNone, st) := by
  simp [object_call, hctx]

/-- C6 witness: a freshly constructed handle (`Object()`, which has no
context) called with no arguments. -/
theorem inert_handle_call_is_noop_witness :
    object_call object_new [] JSVal.null initState = (Except.ok PyValue.pyNone, initState) :=
  inert_handle_call_is_noop object_new [] JSVal.null initState rfl

/-- C7: on a validated call whose engine result is not the exception marker,
the trace decomposes as: conversion effects, the single invocation, one
`JS_FreeValue` per converted argument value (in order, right after the
invocation), then the result-conversion effects; and for every engine object
value the net reference-count change over the whole call segment is zero — in
particular the host's own handles passed as arguments have their wrapped
values dup'd once by conversion and freed once by cleanup, so their engine
reference counts are net unchanged and the handles remain valid and reusable
after the call. -/
theorem call_releases_converted_args (self : ObjectData) (args : List PyValue) (cr : JSVal)
    (st : EngineState) (hctx : self.context = some ())
    (hval : validateArgs args 0 = none) (hcr : cr ≠ JSVal.exception) :
    (object_call self args cr st).2.effects =
        st.effects ++ ((convertArgs args).2
          ++ [Effect.callFn self.object JSVal.null (convertArgs args).1]
          ++ ((convertArgs args).1.map Effect.freeValue)
          ++ qtpEffects st.pendingException cr)
    ∧ ∀ oid : Nat,
        refDelta (JSVal.mkObject oid)
          ((convertArgs args).2
            ++ [Effect.callFn self.object JSVal.null (convertArgs args).1]
            ++ ((convertArgs args).1.map Effect.freeValue)
            ++ qtpEffects st.pendingException cr) = 0 := by
  constructor
  · rw [object_call_valid self args cr st hctx hval, qtp_effects]
    simp [List.append_assoc]
  · intro oid
    rw [refDelta_append, refDelta_append, refDelta_append, refDelta_convertArgs,
      refDelta_callFn, refDelta_map_freeValue, valCount_convertArgs,
      refDelta_qtpEffects oid st.pendingException cr hcr]
    omega

/-- C7 witness: the zero-net-delta conjunct at a concrete call that passes an
existing handle (wrapping engine object 3) as an argument. -/
theorem call_releases_converted_args_witness :
    refDelta (JSVal.mkObject 3)
        ((convertArgs [PyValue.pyInt 1,
            PyValue.pyObject { context := some (), object := JSVal.mkObject 3 }]).2
          ++ [Effect.callFn (JSVal.mkObject 9) JSVal.null
              (convertArgs [PyValue.pyInt 1,
                PyValue.pyObject { context := some (), object := JSVal.mkObject 3 }]).1]
          ++ ((convertArgs [PyValue.pyInt 1,
              PyValue.pyObject { context := some (), object := JSVal.mkObject 3 }]).1.map
                Effect.freeValue)
          ++ qtpEffects none JSVal.null) = 0 :=
  (call_releases_converted_args { context := some (), object := JSVal.mkObject 9 }
      [PyValue.pyInt 1, PyValue.pyObject { context := some (), object := JSVal.mkObject 3 }]
      JSVal.null initState rfl rfl (by decide)).2 3

/-- C8: on a validated call with an attached context, the wrapped engine value
is invoked exactly once, as a function, with `this` bound to the engine's
JS_NULL sentinel — the null `this` sentinel, which the engine's call
semantics resolves to the undefined/global `this` — and with exactly the
converted argument list; the converted list is the pointwise conversion of
the host arguments, in argument order. -/
theorem call_null_this_converted_args (self : ObjectData) (args : List PyValue) (cr : JSVal)
    (st : EngineState) (hctx : self.context = some ()) (hval : validateArgs args 0 = none) :
    (object_call self args cr st).2.effects =
        st.effects ++ ((convertArgs args).2
          ++ [Effect.callFn self.object JSVal.null (convertArgs args).1]
          ++ ((convertArgs args).1.map Effect.freeValue)
          ++ qtpEffects st.pendingException cr)
    ∧ (convertArgs args).1 = args.map (fun a => (convertArg a).1) := by
  constructor
  · rw [object_call_valid self args cr st hctx hval, qtp_effects]
    simp [List.append_assoc]
  · exact convertArgs_fst_map args

/-- C8 witness: the trace of a concrete zero-argument call. -/
theorem call_null_this_converted_args_witness :
    (object_call { context := some (), object := JSVal.mkObject 2 } [] JSVal.null
        initState).2.effects =
      initState.effects ++ ((convertArgs []).2
        ++ [Effect.callFn (JSVal.mkObject 2) JSVal.null (convertArgs []).1]
        ++ ((convertArgs []).1.map Effect.freeValue)
        ++ qtpEffects none JSVal.null) :=
  (call_null_this_converted_args { context := some (), object := JSVal.mkObject 2 } []
      JSVal.null initState rfl rfl).1

/-- C9: a host Boolean is also a host integer (`PyLong_Check` accepts it), yet
the call path marshals it as an engine Boolean and never as an engine
Integer, because the `PyBool_Check` branch precedes the `PyLong_Check` branch
in the conversion chain (and in the validation chain, which accepts it). -/
theorem bool_marshals_as_engine_bool (b : Bool) :
    (convertArg (PyValue.pyBool b)).1 = JSVal.mkBool b
    ∧ pyLong_Check (PyValue.pyBool b) = true
    ∧ argSupported (PyValue.pyBool b) = true
    ∧ isIntVal (convertArg (PyValue.pyBool b)).1 = false := by
  cases b <;> exact ⟨rfl, rfl, rfl, rfl⟩

/-- C10: `json()` is well-defined only under the precondition that the handle
has an attached Context Unit.  A handle made by the public constructor
(`object_new`) has no context; `object_call` guards that case and returns the
None-equivalent without touching the engine, but `object_json` dereferences
the context with no reachable error branch, so on a context-less handle its
outcome is undefined (modeled as `none`); with a context attached it is
defined. -/
theorem object_json_context_precondition :
    object_new.context = none
    ∧ (∀ g j s r : JSVal, ∀ st : EngineState, object_json object_new g j s r st = none)
    ∧ (∀ args : List PyValue, ∀ cr : JSVal, ∀ st : EngineState,
        object_call object_new args cr st = (Except.ok PyValue.pyNone, st))
    ∧ (∀ g j s r : JSVal, ∀ st : EngineState, ∀ oid : Nat,
        (object_json { context := some (), object := JSVal.mkObject oid } g j s r st).isSome
          = true) := by
  refine ⟨rfl, ?_, ?_, ?_⟩ <;> intros <;> simp [object_json, object_call, object_new]

end QuickjsSpec
